import Mathlib

/-!
Verification of the honojs-api core against its specification.

The development shallowly embeds the service layer of the repository:

* `src/utils/jwt.ts` — token issuance and verification (`generateAccessToken`,
  `generateRefreshToken`, `verifyAccessToken`, `verifyRefreshToken`);
* `src/services/auth.service.ts` — `AuthService.setupAdmin`, `AuthService.login`,
  `AuthService.refreshToken`, `UserService.delete`, and the two `PostService`
  variants with their upload helpers;
* `src/services/todo.service.ts` — `TodoService.getById/update/delete`.

Modelling conventions:

* The database is a list of records; Prisma `findUnique`/`findFirst` become
  `List.find?`, `update` becomes `List.map` of a record edit, `delete` becomes
  `List.filter`.
* A JWT is modelled by its decoded content together with the signing secret
  and the `exp` claim.  HMAC-SHA256 signing as used by hono/jwt is a
  deterministic function of (payload, secret), so two tokens are the same
  string exactly when payload, `exp` and secret coincide; token-string
  equality is therefore structure equality.  Time is a natural number of
  epoch seconds.
* `throw` in a service becomes returning `Except.error` together with the
  unchanged database; the success path returns `Except.ok` with the updated
  database.  bcrypt hashing and verification (`Bun.password`) are external,
  so they are passed in as function parameters.
* Roles and statuses are open strings compared against literals, exactly as
  in the source (`role !== "ADMIN"`, `status !== "ACTIVE"`).
* JavaScript strings that undergo character-level manipulation (file names)
  are modelled as `List Char`.
-/

/-- Decoded JWT payload: `{ userId, email, role }` from `src/utils/jwt.ts`. -/
structure JWTPayload where
  userId : String
  email : String
  role : String
deriving DecidableEq, Repr

/-- A signed JWT, identified by its payload fields, expiry and signing
secret.  Since HMAC signing is deterministic, equality of these fields is
equality of the serialized token strings. -/
structure Token where
  userId : String
  email : String
  role : String
  exp : Nat
  secret : String
deriving DecidableEq, Repr

/-- `config.jwtSecret` default from `src/config/index.ts`. -/
def jwtSecret : String := "default-secret-key"

/-- `config.jwtRefreshSecret` default from `src/config/index.ts`. -/
def jwtRefreshSecret : String := "default-refresh-secret-key"

/-- `generateAccessToken` (`src/utils/jwt.ts`): signs the payload with
`config.jwtSecret` and `exp = now + 15 * 60`. -/
def generateAccessToken (payload : JWTPayload) (now : Nat) : Token :=
  { userId := payload.userId, email := payload.email, role := payload.role
    exp := now + 15 * 60, secret := jwtSecret }

/-- `generateRefreshToken` (`src/utils/jwt.ts`): signs the payload with
`config.jwtRefreshSecret` and `exp = now + 7 * 24 * 60 * 60`. -/
def generateRefreshToken (payload : JWTPayload) (now : Nat) : Token :=
  { userId := payload.userId, email := payload.email, role := payload.role
    exp := now + 7 * 24 * 60 * 60, secret := jwtRefreshSecret }

/-- `hono/jwt` `verify` wrapped in try/catch: returns the decoded payload
when the signature matches `secret` and the token is not expired, and the
`null` sentinel (`none`) on any failure.  It never raises. -/
def verifyToken (token : Token) (secret : String) (now : Nat) : Option JWTPayload :=
  if token.secret = secret ∧ now < token.exp then
    some { userId := token.userId, email := token.email, role := token.role }
  else
    none

/-- `verifyAccessToken` (`src/utils/jwt.ts`). -/
def verifyAccessToken (token : Token) (now : Nat) : Option JWTPayload :=
  verifyToken token jwtSecret now

/-- `verifyRefreshToken` (`src/utils/jwt.ts`). -/
def verifyRefreshToken (token : Token) (now : Nat) : Option JWTPayload :=
  verifyToken token jwtRefreshSecret now

/-- Error taxonomy of `src/exceptions/index.ts`, by constructor name:
`NotFoundException`, `UnauthorizedException`, `ForbiddenException`,
`ConflictException`, `BadRequestException`. -/
inductive AppError where
  | notFound (resource : String)
  | unauthorized (message : String)
  | forbidden (message : String)
  | conflict (message : String)
  | badRequest (message : String)
deriving DecidableEq, Repr

/-- Whether a service outcome is a `ForbiddenException`. -/
def errIsForbidden {α : Type} : Except AppError α → Bool
  | .error (.forbidden _) => true
  | _ => false

/-- Whether a service outcome is an `UnauthorizedException`. -/
def errIsUnauthorized {α : Type} : Except AppError α → Bool
  | .error (.unauthorized _) => true
  | _ => false

/-- Whether a service outcome is a `BadRequestException`. -/
def errIsBadRequest {α : Type} : Except AppError α → Bool
  | .error (.badRequest _) => true
  | _ => false

/-- Whether a service outcome is a `ConflictException`. -/
def errIsConflict {α : Type} : Except AppError α → Bool
  | .error (.conflict _) => true
  | _ => false

/-- Whether a service outcome is a success. -/
def exceptOk {α : Type} : Except AppError α → Bool
  | .ok _ => true
  | .error _ => false

-- Decidable equality for service outcomes, used when evaluating witnesses.
deriving instance DecidableEq for Except

/-- Account record (Prisma `User` model): the fields the verified services
consult.  `refreshToken` is the at-most-one stored refresh token (nullable
in the schema). -/
structure User where
  id : String
  email : String
  password : String
  name : String
  role : String
  status : String
  refreshToken : Option Token
deriving DecidableEq, Repr

/-- `UserRepository.findByEmail` / `prisma.user.findUnique({ where: { email } })`. -/
def findUserByEmail (db : List User) (email : String) : Option User :=
  db.find? (fun u => u.email == email)

/-- `UserRepository.findById` / `prisma.user.findUnique({ where: { id } })`. -/
def findUserById (db : List User) (id : String) : Option User :=
  db.find? (fun u => u.id == id)

/-- `UserRepository.updateRefreshToken` / `prisma.user.update({ where: { id },
data: { refreshToken } })`. -/
def updateRefreshToken (db : List User) (id : String) (tok : Option Token) : List User :=
  db.map (fun u => if u.id == id then { u with refreshToken := tok } else u)

/-- Input accepted by `setupAdmin` and `register` (validated registration
fields; the optional phone and birth date play no role in the claims). -/
structure RegisterInput where
  email : String
  password : String
  name : String
deriving DecidableEq, Repr

/-- `AuthService.login` (`src/services/auth.service.ts`).  `verifyPassword`
(bcrypt via `Bun.password.verify`) is external and passed in.  Returns the
thrown exception or the issued token pair, together with the resulting
database state. -/
def AuthService.login (verifyPassword : String → String → Bool) (db : List User)
    (email password : String) (now : Nat) :
    Except AppError (Token × Token × User) × List User :=
  match findUserByEmail db email with
  | none => (.error (.unauthorized "Invalid credentials"), db)
  | some user =>
    if user.status ≠ "ACTIVE" then
      (.error (.forbidden "Account is inactive"), db)
    else if ¬ verifyPassword password user.password then
      (.error (.unauthorized "Invalid credentials"), db)
    else
      let payload : JWTPayload := { userId := user.id, email := user.email, role := user.role }
      let accessToken := generateAccessToken payload now
      let refreshToken := generateRefreshToken payload now
      (.ok (accessToken, refreshToken, user), updateRefreshToken db user.id (some refreshToken))

/-- `AuthService.refreshToken` (`src/services/auth.service.ts`): verify the
presented refresh token, compare it with the stored value, check the account
status, then rotate.  The `!user || user.refreshToken !== token` disjunction
of the source is split into its two cases. -/
def AuthService.refreshToken (db : List User) (token : Token) (now : Nat) :
    Except AppError (Token × Token) × List User :=
  match verifyRefreshToken token now with
  | none => (.error (.unauthorized "Invalid refresh token"), db)
  | some payload =>
    match findUserById db payload.userId with
    | none => (.error (.unauthorized "Invalid refresh token"), db)
    | some user =>
      if user.refreshToken ≠ some token then
        (.error (.unauthorized "Invalid refresh token"), db)
      else if user.status ≠ "ACTIVE" then
        (.error (.forbidden "Account is inactive"), db)
      else
        let newPayload : JWTPayload := { userId := user.id, email := user.email, role := user.role }
        let accessToken := generateAccessToken newPayload now
        let newRefreshToken := generateRefreshToken newPayload now
        (.ok (accessToken, newRefreshToken), updateRefreshToken db user.id (some newRefreshToken))

/-- `AuthService.logout`: clear the stored refresh token. -/
def AuthService.logout (db : List User) (userId : String) : List User :=
  updateRefreshToken db userId none

/-- `AuthService.setupAdmin` (`src/services/auth.service.ts`).  `hashPassword`
(bcrypt via `Bun.password.hash`) and the Prisma-generated id of the created
row are external and passed in. -/
def AuthService.setupAdmin (hashPassword : String → String) (newId : String)
    (db : List User) (data : RegisterInput) :
    Except AppError User × List User :=
  match db.find? (fun u => u.role == "ADMIN") with
  | some _ =>
    (.error (.forbidden "Admin already exists. Use /api/users to create more admins."), db)
  | none =>
    match findUserByEmail db data.email with
    | some _ => (.error (.conflict "Email already registered"), db)
    | none =>
      let user : User :=
        { id := newId, email := data.email, password := hashPassword data.password
          name := data.name, role := "ADMIN", status := "ACTIVE", refreshToken := none }
      (.ok user, db ++ [user])

/-- `UserService.delete` (`src/services/user.service.ts`): the self-delete
guard runs before the existence lookup. -/
def UserService.delete (db : List User) (id currentUserId : String) :
    Except AppError Unit × List User :=
  if id = currentUserId then
    (.error (.badRequest "Cannot delete your own account"), db)
  else
    match findUserById db id with
    | none => (.error (.notFound "User"), db)
    | some _ => (.ok (), db.filter (fun u => u.id ≠ id))

/-- Todo record (Prisma `Todo` model): the fields `TodoService` consults. -/
structure Todo where
  id : String
  userId : String
  title : String
  description : Option String
  completed : Bool
deriving DecidableEq, Repr

/-- `TodoRepository.findById`. -/
def findTodoById (db : List Todo) (id : String) : Option Todo :=
  db.find? (fun t => t.id == id)

/-- `updateTodoSchema` payload: each field optionally present
(`description` is also nullable). -/
structure TodoUpdate where
  title : Option String
  description : Option (Option String)
  completed : Option Bool
deriving Repr

/-- Applying a partial todo update to a record (Prisma `update`). -/
def applyTodoUpdate (t : Todo) (d : TodoUpdate) : Todo :=
  { t with
    title := d.title.getD t.title
    description := d.description.getD t.description
    completed := d.completed.getD t.completed }

/-- `TodoService.getById` (`src/services/todo.service.ts`). -/
def TodoService.getById (db : List Todo) (id userId role : String) :
    Except AppError Todo :=
  match findTodoById db id with
  | none => .error (.notFound "Todo")
  | some todo =>
    if role ≠ "ADMIN" ∧ todo.userId ≠ userId then
      .error (.forbidden "You can only access your own todos")
    else
      .ok todo

/-- `TodoService.update` (`src/services/todo.service.ts`). -/
def TodoService.update (db : List Todo) (id userId role : String)
    (data : TodoUpdate) : Except AppError Todo × List Todo :=
  match findTodoById db id with
  | none => (.error (.notFound "Todo"), db)
  | some todo =>
    if role ≠ "ADMIN" ∧ todo.userId ≠ userId then
      (.error (.forbidden "You can only update your own todos"), db)
    else
      (.ok (applyTodoUpdate todo data),
       db.map (fun t => if t.id == id then applyTodoUpdate t data else t))

/-- `TodoService.delete` (`src/services/todo.service.ts`). -/
def TodoService.delete (db : List Todo) (id userId role : String) :
    Except AppError Unit × List Todo :=
  match findTodoById db id with
  | none => (.error (.notFound "Todo"), db)
  | some todo =>
    if role ≠ "ADMIN" ∧ todo.userId ≠ userId then
      (.error (.forbidden "You can only delete your own todos"), db)
    else
      (.ok (), db.filter (fun t => t.id ≠ id))

/-- Attachment record (Prisma `PostFile` model).  File names and paths are
JavaScript strings manipulated character-wise, modelled as `List Char`. -/
structure PostFile where
  id : String
  postId : String
  originalName : List Char
  storedName : List Char
  path : List Char
  mimeType : String
  size : Nat
deriving DecidableEq, Repr

/-- Post record (Prisma `Post` model) with its attached files. -/
structure Post where
  id : String
  authorId : String
  title : String
  content : String
  published : Bool
  files : List PostFile
deriving DecidableEq, Repr

/-- `PostRepository.findById`. -/
def findPostById (db : List Post) (id : String) : Option Post :=
  db.find? (fun p => p.id == id)

/-- `updatePostSchema` payload: each field optionally present. -/
structure PostUpdate where
  title : Option String
  content : Option String
  published : Option Bool
deriving Repr

/-- Applying a partial post update to a record (Prisma `update`). -/
def applyPostUpdate (p : Post) (d : PostUpdate) : Post :=
  { p with
    title := d.title.getD p.title
    content := d.content.getD p.content
    published := d.published.getD p.published }

/-- `PostService.getById` (both variants of `services/post.service.ts`
contain the identical function). -/
def PostService.getById (db : List Post) (id userId role : String) :
    Except AppError Post :=
  match findPostById db id with
  | none => .error (.notFound "Post")
  | some post =>
    if role ≠ "ADMIN" ∧ post.authorId ≠ userId then
      .error (.forbidden "You can only access your own posts")
    else
      .ok post

/-- `PostService.update` (identical in both variants). -/
def PostService.update (db : List Post) (id userId role : String)
    (data : PostUpdate) : Except AppError Post × List Post :=
  match findPostById db id with
  | none => (.error (.notFound "Post"), db)
  | some post =>
    if role ≠ "ADMIN" ∧ post.authorId ≠ userId then
      (.error (.forbidden "You can only update your own posts"), db)
    else
      (.ok (applyPostUpdate post data),
       db.map (fun p => if p.id == id then applyPostUpdate p data else p))

/-- `PostService.delete`: the database effect common to both variants (the
variants differ only in how they remove the on-disk payloads, which is
outside the record model and does not influence the decision or the store). -/
def PostService.delete (db : List Post) (id userId role : String) :
    Except AppError Unit × List Post :=
  match findPostById db id with
  | none => (.error (.notFound "Post"), db)
  | some post =>
    if role ≠ "ADMIN" ∧ post.authorId ≠ userId then
      (.error (.forbidden "You can only delete your own posts"), db)
    else
      (.ok (), db.filter (fun p => p.id ≠ id))

/-- `ALLOWED_MIME_TYPES` from `services/post.service.ts`. -/
def ALLOWED_MIME_TYPES : List String :=
  ["image/jpeg", "image/png", "image/gif", "image/webp", "application/pdf",
   "application/msword",
   "application/vnd.openxmlformats-officedocument.wordprocessingml.document",
   "text/plain"]

/-- `MAX_FILE_SIZE = 5 * 1024 * 1024` bytes (5 MiB). -/
def MAX_FILE_SIZE : Nat := 5 * 1024 * 1024

/-- `MAX_FILES = 10` files per upload. -/
def MAX_FILES : Nat := 10

/-- An uploaded `File` from multipart form data: declared name, declared
MIME type, size in bytes, and the byte content. -/
structure UploadFile where
  name : List Char
  type : String
  size : Nat
  content : List Nat
deriving DecidableEq, Repr

/-- The per-file validation loop of `uploadFiles`: MIME type against the
allow-list first, then size against the ceiling, failing on the first
offending file.  It runs to completion over the whole batch before any
disk write is attempted. -/
def validateFiles : List UploadFile → Except AppError Unit
  | [] => .ok ()
  | f :: rest =>
    if ¬ ALLOWED_MIME_TYPES.contains f.type then
      .error (.badRequest ("File \"" ++ String.mk f.name ++
        "\" has unsupported type: " ++ f.type ++
        ". Allowed: images, PDF, DOC, DOCX, TXT"))
    else if f.size > MAX_FILE_SIZE then
      .error (.badRequest ("File \"" ++ String.mk f.name ++
        "\" exceeds maximum size of 5MB"))
    else
      validateFiles rest

/-- Position of the last dot: `originalName.lastIndexOf(".")`, returning
the name before it and the extension after it, or `none` when the name has
no dot. -/
def splitAtLastDot : List Char → Option (List Char × List Char)
  | [] => none
  | c :: cs =>
    match splitAtLastDot cs with
    | some (pre, ext) => some (c :: pre, ext)
    | none => if c = '.' then some ([], cs) else none

/-- `generateStoredName`, first variant (`{NamaAsli-XX}.ext`): keep the
original base name, add two random hex characters, keep the original
extension with `bin` as fallback when the name has no dot.  `random2`
makes the two characters drawn from `crypto.randomUUID()` explicit. -/
def generateStoredName (originalName random2 : List Char) : List Char :=
  match splitAtLastDot originalName with
  | some (nameWithoutExt, ext) =>
    nameWithoutExt ++ ('-' :: random2) ++ ('.' :: ext)
  | none => originalName ++ ('-' :: random2) ++ ('.' :: "bin".toList)

/-- `generateStoredName`, second variant (`uuid.ext`): a fresh UUID plus
the last dot-separated segment of the original name
(`originalName.split(".").pop() || "bin"`; the whole name when it has no
dot, `bin` when the segment is empty). -/
def generateStoredName2 (originalName uuid : List Char) : List Char :=
  let ext : List Char :=
    match splitAtLastDot originalName with
    | some (_, e) => if e = [] then "bin".toList else e
    | none => if originalName = [] then "bin".toList else originalName
  uuid ++ ('.' :: ext)

/-- `join(uploadDir, "posts", postId)` with the default `uploads`
directory. -/
def postDirOf (postId : String) : List Char :=
  "uploads/posts/".toList ++ postId.toList

/-- Metadata record pushed into `fileRecords` and persisted by
`PostRepository.createFiles`. -/
structure FileRecord where
  postId : String
  originalName : List Char
  storedName : List Char
  path : List Char
  mimeType : String
  size : Nat
deriving DecidableEq, Repr

/-- One `Bun.write(filePath, buffer)` call. -/
structure DiskWrite where
  path : List Char
  content : List Nat
deriving DecidableEq, Repr

/-- The write loop of `uploadFiles`: one disk write and one metadata record
per file, in order.  `gen i name` is the stored name for the i-th file,
making the random source of `generateStoredName` explicit; either variant
arises by instantiation. -/
def processFiles (postId : String) (gen : Nat → List Char → List Char) :
    Nat → List UploadFile → List DiskWrite × List FileRecord
  | _, [] => ([], [])
  | i, f :: rest =>
    let storedName := gen i f.name
    let filePath := postDirOf postId ++ ('/' :: storedName)
    let rec2 := processFiles postId gen (i + 1) rest
    ({ path := filePath, content := f.content } :: rec2.1,
     { postId := postId, originalName := f.name, storedName := storedName,
       path := filePath, mimeType := f.type, size := f.size } :: rec2.2)

/-- `PostService.uploadFiles` (identical in both variants up to the choice
of `generateStoredName`): existence check, ownership check, batch count
checks, per-file validation over the whole batch, then the write loop.  The
second component collects every disk write performed. -/
def PostService.uploadFiles (db : List Post) (postId userId role : String)
    (files : List UploadFile) (gen : Nat → List Char → List Char) :
    Except AppError (List FileRecord) × List DiskWrite :=
  match findPostById db postId with
  | none => (.error (.notFound "Post"), [])
  | some post =>
    if role ≠ "ADMIN" ∧ post.authorId ≠ userId then
      (.error (.forbidden "You can only upload files to your own posts"), [])
    else if files.length = 0 then
      (.error (.badRequest "No files provided"), [])
    else if files.length > MAX_FILES then
      (.error (.badRequest "Maximum 10 files allowed per upload"), [])
    else
      match validateFiles files with
      | .error e => (.error e, [])
      | .ok _ =>
        let wr := processFiles postId gen 0 files
        (.ok wr.2, wr.1)

/-- C8: round-trip — issuing an access token for an identity and verifying
it with the matching secret before its 15-minute lifetime elapses yields the
same `{accountId, email, role}`; verifying after the lifetime has elapsed
yields the invalid sentinel `none` (the try/catch in `verifyAccessToken`
makes verification total — it reports, it never raises). -/
theorem access_token_roundtrip_and_expiry (p : JWTPayload) (issued now1 now2 : Nat)
    (h1 : now1 < issued + 15 * 60) (h2 : issued + 15 * 60 ≤ now2) :
    verifyAccessToken (generateAccessToken p issued) now1 = some p ∧
    verifyAccessToken (generateAccessToken p issued) now2 = none := by
  constructor
  · simp [verifyAccessToken, generateAccessToken, verifyToken, h1]
  · simp [verifyAccessToken, generateAccessToken, verifyToken]
    omega

/-- C8 witness: concrete identity, issued at time 0, verified at times 100
and 900. -/
theorem access_token_roundtrip_and_expiry_witness :
    verifyAccessToken
      (generateAccessToken { userId := "u1", email := "a@b.c", role := "USER" } 0) 100 =
      some { userId := "u1", email := "a@b.c", role := "USER" } ∧
    verifyAccessToken
      (generateAccessToken { userId := "u1", email := "a@b.c", role := "USER" } 0) 900 =
      none :=
  access_token_roundtrip_and_expiry
    { userId := "u1", email := "a@b.c", role := "USER" } 0 100 900
    (by decide) (by decide)

/-- C6: a login whose email resolves to no account and a login against an
existing ACTIVE account whose password does not verify produce the same
error kind with the same message text — `UnauthorizedException` with
"Invalid credentials" — so the two cases are indistinguishable to the
caller. -/
theorem login_nonenumerability (vp : String → String → Bool) (db : List User)
    (e1 p1 e2 p2 : String) (now1 now2 : Nat) (u : User)
    (h1 : findUserByEmail db e1 = none)
    (h2 : findUserByEmail db e2 = some u)
    (h2a : u.status = "ACTIVE")
    (h2b : vp p2 u.password = false) :
    (AuthService.login vp db e1 p1 now1).1 = .error (.unauthorized "Invalid credentials") ∧
    (AuthService.login vp db e2 p2 now2).1 = .error (.unauthorized "Invalid credentials") ∧
    (AuthService.login vp db e1 p1 now1).1 = (AuthService.login vp db e2 p2 now2).1 := by
  refine ⟨?_, ?_, ?_⟩ <;>
    simp [AuthService.login, h1, h2, h2a, h2b]

/-- C6 witness: one-user database; unknown email versus wrong password. -/
theorem login_nonenumerability_witness :
    (AuthService.login (fun p h => p == h)
      [{ id := "u1", email := "a@b.c", password := "hash1", name := "A",
         role := "USER", status := "ACTIVE", refreshToken := none }]
      "missing@b.c" "x" 0).1 = .error (.unauthorized "Invalid credentials") ∧
    (AuthService.login (fun p h => p == h)
      [{ id := "u1", email := "a@b.c", password := "hash1", name := "A",
         role := "USER", status := "ACTIVE", refreshToken := none }]
      "a@b.c" "wrong" 0).1 = .error (.unauthorized "Invalid credentials") ∧
    (AuthService.login (fun p h => p == h)
      [{ id := "u1", email := "a@b.c", password := "hash1", name := "A",
         role := "USER", status := "ACTIVE", refreshToken := none }]
      "missing@b.c" "x" 0).1 =
    (AuthService.login (fun p h => p == h)
      [{ id := "u1", email := "a@b.c", password := "hash1", name := "A",
         role := "USER", status := "ACTIVE", refreshToken := none }]
      "a@b.c" "wrong" 0).1 :=
  login_nonenumerability (fun p h => p == h)
    [{ id := "u1", email := "a@b.c", password := "hash1", name := "A",
       role := "USER", status := "ACTIVE", refreshToken := none }]
    "missing@b.c" "x" "a@b.c" "wrong" 0 0
    { id := "u1", email := "a@b.c", password := "hash1", name := "A",
      role := "USER", status := "ACTIVE", refreshToken := none }
    (by decide) (by decide) (by decide) (by decide)

/-- C10: a login attempt against an account whose status is not ACTIVE
yields `ForbiddenException "Account is inactive"` with the database
unchanged, for every password and every password verifier — the status
check precedes password verification, so the outcome does not depend on
whether the supplied password is correct. -/
theorem login_inactive_before_password (vp : String → String → Bool)
    (db : List User) (email password : String) (now : Nat) (u : User)
    (h : findUserByEmail db email = some u)
    (hs : u.status ≠ "ACTIVE") :
    AuthService.login vp db email password now =
      (.error (.forbidden "Account is inactive"), db) := by
  simp [AuthService.login, h, hs]

/-- C10 witness: an inactive account is reported as inactive even when the
supplied password is the correct one (verifier returns true on it). -/
theorem login_inactive_before_password_witness :
    AuthService.login (fun p h => p == h)
      [{ id := "u1", email := "a@b.c", password := "pw", name := "A",
         role := "USER", status := "INACTIVE", refreshToken := none }]
      "a@b.c" "pw" 0 =
      (.error (.forbidden "Account is inactive"),
       [{ id := "u1", email := "a@b.c", password := "pw", name := "A",
          role := "USER", status := "INACTIVE", refreshToken := none }]) :=
  login_inactive_before_password (fun p h => p == h)
    [{ id := "u1", email := "a@b.c", password := "pw", name := "A",
       role := "USER", status := "INACTIVE", refreshToken := none }]
    "a@b.c" "pw" 0
    { id := "u1", email := "a@b.c", password := "pw", name := "A",
      role := "USER", status := "INACTIVE", refreshToken := none }
    (by decide) (by decide)

/-- `find?` commutes with mapping a function that does not change the
predicate: used to track a user through `updateRefreshToken`. -/
theorem find?_map_comm {α : Type} (f : α → α) (p : α → Bool)
    (hp : ∀ a, p (f a) = p a) (l : List α) :
    (l.map f).find? p = (l.find? p).map f := by
  induction l with
  | nil => rfl
  | cons a l ih =>
    simp only [List.map_cons]
    cases h : p a with
    | true =>
      rw [List.find?_cons_of_pos _ (by rw [hp]; exact h),
        List.find?_cons_of_pos _ h]
      rfl
    | false =>
      rw [List.find?_cons_of_neg _ (by simp [hp, h]),
        List.find?_cons_of_neg _ (by simp [h]), ih]

/-- A user found by id has that id. -/
theorem findUserById_id (db : List User) (i : String) (u : User)
    (h : findUserById db i = some u) : u.id = i := by
  have hp := List.find?_some h
  exact eq_of_beq hp

/-- Looking up an id after `updateRefreshToken` finds the same record, with
its `refreshToken` field rewritten when the ids coincide. -/
theorem findUserById_updateRefreshToken (db : List User) (id : String)
    (tok : Option Token) (i : String) :
    findUserById (updateRefreshToken db id tok) i =
      (findUserById db i).map
        (fun u => if u.id == id then { u with refreshToken := tok } else u) := by
  unfold findUserById updateRefreshToken
  apply find?_map_comm
  intro a
  by_cases h : a.id = id <;> simp [h]



/-- A verified refresh token decodes to its own payload fields. -/
theorem verifyRefreshToken_some (t : Token) (now : Nat) (payload : JWTPayload)
    (h : verifyRefreshToken t now = some payload) :
    payload.userId = t.userId ∧ t.secret = jwtRefreshSecret ∧ now < t.exp := by
  unfold verifyRefreshToken verifyToken at h
  split at h
  · rename_i hc
    cases h
    exact ⟨rfl, hc.1, hc.2⟩
  · cases h

/-- Refresh with a cryptographically invalid or expired token: rejected,
state unchanged. -/
theorem refresh_verify_none (db : List User) (t : Token) (now : Nat)
    (hv : verifyRefreshToken t now = none) :
    AuthService.refreshToken db t now =
      (.error (.unauthorized "Invalid refresh token"), db) := by
  unfold AuthService.refreshToken
  simp [hv]

/-- Refresh whose payload names no existing account: rejected, state
unchanged. -/
theorem refresh_user_missing (db : List User) (t : Token) (now : Nat)
    (payload : JWTPayload)
    (hv : verifyRefreshToken t now = some payload)
    (hf : findUserById db payload.userId = none) :
    AuthService.refreshToken db t now =
      (.error (.unauthorized "Invalid refresh token"), db) := by
  unfold AuthService.refreshToken
  simp [hv, hf]

/-- Refresh with a token different from the stored one: rejected, state
unchanged. -/
theorem refresh_mismatch (db : List User) (t : Token) (now : Nat) (user : User)
    (hfu : findUserById db t.userId = some user)
    (hm : user.refreshToken ≠ some t) :
    AuthService.refreshToken db t now =
      (.error (.unauthorized "Invalid refresh token"), db) := by
  unfold AuthService.refreshToken
  cases hv : verifyRefreshToken t now with
  | none => rfl
  | some payload =>
    have hp := (verifyRefreshToken_some t now payload hv).1
    simp [hp, hfu, hm]

/-- Refresh for a non-ACTIVE account with a matching token: rejected with
`Forbidden`, state unchanged. -/
theorem refresh_inactive (db : List User) (t : Token) (now : Nat)
    (payload : JWTPayload) (user : User)
    (hv : verifyRefreshToken t now = some payload)
    (hfu : findUserById db t.userId = some user)
    (hm : user.refreshToken = some t)
    (hs : user.status ≠ "ACTIVE") :
    AuthService.refreshToken db t now =
      (.error (.forbidden "Account is inactive"), db) := by
  have hp := (verifyRefreshToken_some t now payload hv).1
  unfold AuthService.refreshToken
  simp [hv, hp, hfu, hm, hs]

/-- Inversion of a successful refresh: it found the token's account, the
stored token matched, the account was ACTIVE, and the result rotates in a
freshly generated refresh token. -/
theorem refresh_ok_inv (db : List User) (t : Token) (now : Nat)
    (a r : Token) (db2 : List User)
    (h : AuthService.refreshToken db t now = (.ok (a, r), db2)) :
    ∃ user, findUserById db t.userId = some user ∧
      user.refreshToken = some t ∧
      user.status = "ACTIVE" ∧
      user.id = t.userId ∧
      r = generateRefreshToken
        { userId := user.id, email := user.email, role := user.role } now ∧
      db2 = updateRefreshToken db user.id (some r) := by
  unfold AuthService.refreshToken at h
  split at h
  · exact absurd h (by simp)
  · rename_i payload hv
    split at h
    · exact absurd h (by simp)
    · rename_i user hf
      split at h
      · exact absurd h (by simp)
      · split at h
        · exact absurd h (by simp)
        · rename_i hm hs
          have hp := (verifyRefreshToken_some t now payload hv).1
          have huid : user.id = t.userId := by
            rw [findUserById_id db payload.userId user hf, hp]
          simp only [Prod.mk.injEq, Except.ok.injEq] at h
          refine ⟨user, ?_, ?_, ?_, huid, h.1.2.symm, ?_⟩
          · rw [← hp]; exact hf
          · simpa using hm
          · simpa using hs
          · rw [← h.2, h.1.2]

/-- C2 (amended): whenever a refresh succeeds and the submitted refresh
token was not issued at the very epoch second of the refresh (equivalently,
its expiry differs from `now + 7 days`), the newly stored refresh token is
a different token string from the submitted one, and re-submitting the
previously valid refresh token at any later time fails with
`Unauthorized "Invalid refresh token"`.  Without the side condition the
property fails: hono/jwt signing is deterministic, so a rotation within the
issuance second regenerates the identical token string (see the
counterexample theorem). -/
theorem refresh_rotation_rejection (db : List User) (t : Token) (now : Nat)
    (a r : Token) (db2 : List User)
    (h : AuthService.refreshToken db t now = (.ok (a, r), db2))
    (hfresh : t.exp ≠ now + 7 * 24 * 60 * 60) :
    r ≠ t ∧ ∀ now2, (AuthService.refreshToken db2 t now2).1 =
      .error (.unauthorized "Invalid refresh token") := by
  obtain ⟨user, hfu, hm, hs, huid, hr, hdb2⟩ := refresh_ok_inv db t now a r db2 h
  have hrt : r ≠ t := by
    intro he
    apply hfresh
    rw [← he, hr]
    rfl
  refine ⟨hrt, fun now2 => ?_⟩
  have hfu2 : findUserById db2 t.userId = some { user with refreshToken := some r } := by
    rw [hdb2, findUserById_updateRefreshToken, hfu]
    simp
  have hres := refresh_mismatch db2 t now2 { user with refreshToken := some r } hfu2
    (by simpa using hrt)
  rw [hres]

/-- C2 witness for the amended theorem: a token issued at second 1000 is
used to refresh at second 2000; the rotated token differs and the stale
token is rejected at second 3000. -/
theorem refresh_rotation_rejection_witness :
    generateRefreshToken { userId := "u1", email := "a@b.c", role := "USER" } 2000 ≠
      generateRefreshToken { userId := "u1", email := "a@b.c", role := "USER" } 1000 ∧
    (AuthService.refreshToken
      (updateRefreshToken
        [{ id := "u1", email := "a@b.c", password := "h", name := "A",
           role := "USER", status := "ACTIVE",
           refreshToken := some (generateRefreshToken
             { userId := "u1", email := "a@b.c", role := "USER" } 1000) }]
        "u1"
        (some (generateRefreshToken { userId := "u1", email := "a@b.c", role := "USER" } 2000)))
      (generateRefreshToken { userId := "u1", email := "a@b.c", role := "USER" } 1000)
      3000).1 = .error (.unauthorized "Invalid refresh token") := by
  have H := refresh_rotation_rejection
    [{ id := "u1", email := "a@b.c", password := "h", name := "A",
       role := "USER", status := "ACTIVE",
       refreshToken := some (generateRefreshToken
         { userId := "u1", email := "a@b.c", role := "USER" } 1000) }]
    (generateRefreshToken { userId := "u1", email := "a@b.c", role := "USER" } 1000)
    2000
    (generateAccessToken { userId := "u1", email := "a@b.c", role := "USER" } 2000)
    (generateRefreshToken { userId := "u1", email := "a@b.c", role := "USER" } 2000)
    (updateRefreshToken
      [{ id := "u1", email := "a@b.c", password := "h", name := "A",
         role := "USER", status := "ACTIVE",
         refreshToken := some (generateRefreshToken
           { userId := "u1", email := "a@b.c", role := "USER" } 1000) }]
      "u1"
      (some (generateRefreshToken { userId := "u1", email := "a@b.c", role := "USER" } 2000)))
    (by decide) (by decide)
  exact ⟨H.1, H.2 3000⟩

/-- C2 counterexample to the claim as stated: a refresh performed at the
same epoch second at which the submitted refresh token was issued
regenerates the *identical* token string (deterministic signing), so the
newly stored token is not different from the submitted one, and
re-submitting the previously valid token succeeds instead of failing with
`Unauthorized`. -/
theorem refresh_same_second_reuse_counterexample :
    (AuthService.refreshToken
      [{ id := "u1", email := "a@b.c", password := "h", name := "A",
         role := "USER", status := "ACTIVE",
         refreshToken := some (generateRefreshToken
           { userId := "u1", email := "a@b.c", role := "USER" } 1000) }]
      (generateRefreshToken { userId := "u1", email := "a@b.c", role := "USER" } 1000)
      1000).1 =
      .ok (generateAccessToken { userId := "u1", email := "a@b.c", role := "USER" } 1000,
           generateRefreshToken { userId := "u1", email := "a@b.c", role := "USER" } 1000) ∧
    exceptOk
      (AuthService.refreshToken
        (AuthService.refreshToken
          [{ id := "u1", email := "a@b.c", password := "h", name := "A",
             role := "USER", status := "ACTIVE",
             refreshToken := some (generateRefreshToken
               { userId := "u1", email := "a@b.c", role := "USER" } 1000) }]
          (generateRefreshToken { userId := "u1", email := "a@b.c", role := "USER" } 1000)
          1000).2
        (generateRefreshToken { userId := "u1", email := "a@b.c", role := "USER" } 1000)
        1000).1 = true := by
  decide

/-- C3 (amended): every failing refresh leaves the stored refresh tokens
unchanged (the error branches return the database as received), and the
error kinds are: `Unauthorized "Invalid refresh token"` when the token
fails cryptographic verification, names no existing account, or differs
from the stored value; but `Forbidden "Account is inactive"` — not an
`Unauthorized` authentication failure — when the token verifies and matches
while the account status is not ACTIVE. -/
theorem refresh_failure_kinds_and_state (db : List User) (t : Token) (now : Nat) :
    (verifyRefreshToken t now = none →
      AuthService.refreshToken db t now =
        (.error (.unauthorized "Invalid refresh token"), db)) ∧
    (∀ payload, verifyRefreshToken t now = some payload →
      findUserById db payload.userId = none →
      AuthService.refreshToken db t now =
        (.error (.unauthorized "Invalid refresh token"), db)) ∧
    (∀ user, findUserById db t.userId = some user →
      user.refreshToken ≠ some t →
      AuthService.refreshToken db t now =
        (.error (.unauthorized "Invalid refresh token"), db)) ∧
    (∀ payload user, verifyRefreshToken t now = some payload →
      findUserById db t.userId = some user →
      user.refreshToken = some t →
      user.status ≠ "ACTIVE" →
      AuthService.refreshToken db t now =
        (.error (.forbidden "Account is inactive"), db)) := by
  refine ⟨refresh_verify_none db t now, ?_, ?_, ?_⟩
  · intro payload hv hf
    exact refresh_user_missing db t now payload hv hf
  · intro user hfu hm
    exact refresh_mismatch db t now user hfu hm
  · intro payload user hv hfu hm hs
    exact refresh_inactive db t now payload user hv hfu hm hs

/-- C3 witness: the four failure branches at concrete inputs — an expired
token, a token for a missing account, a token differing from the stored
value, and a matching token on an INACTIVE account — each rejected with the
stated kind and with the database returned unchanged. -/
theorem refresh_failure_kinds_and_state_witness :
    AuthService.refreshToken []
      (generateRefreshToken { userId := "u1", email := "a@b.c", role := "USER" } 0)
      1000000 =
      (.error (.unauthorized "Invalid refresh token"), []) ∧
    AuthService.refreshToken []
      (generateRefreshToken { userId := "ghost", email := "g@b.c", role := "USER" } 1000)
      2000 =
      (.error (.unauthorized "Invalid refresh token"), []) ∧
    AuthService.refreshToken
      [{ id := "u1", email := "a@b.c", password := "h", name := "A",
         role := "USER", status := "ACTIVE", refreshToken := none }]
      (generateRefreshToken { userId := "u1", email := "a@b.c", role := "USER" } 1000)
      2000 =
      (.error (.unauthorized "Invalid refresh token"),
       [{ id := "u1", email := "a@b.c", password := "h", name := "A",
          role := "USER", status := "ACTIVE", refreshToken := none }]) ∧
    AuthService.refreshToken
      [{ id := "u1", email := "a@b.c", password := "h", name := "A",
         role := "USER", status := "INACTIVE",
         refreshToken := some (generateRefreshToken
           { userId := "u1", email := "a@b.c", role := "USER" } 1000) }]
      (generateRefreshToken { userId := "u1", email := "a@b.c", role := "USER" } 1000)
      2000 =
      (.error (.forbidden "Account is inactive"),
       [{ id := "u1", email := "a@b.c", password := "h", name := "A",
          role := "USER", status := "INACTIVE",
          refreshToken := some (generateRefreshToken
            { userId := "u1", email := "a@b.c", role := "USER" } 1000) }]) := by
  refine ⟨?_, ?_, ?_, ?_⟩
  · exact (refresh_failure_kinds_and_state []
      (generateRefreshToken { userId := "u1", email := "a@b.c", role := "USER" } 0)
      1000000).1 (by decide)
  · exact (refresh_failure_kinds_and_state []
      (generateRefreshToken { userId := "ghost", email := "g@b.c", role := "USER" } 1000)
      2000).2.1 { userId := "ghost", email := "g@b.c", role := "USER" }
      (by decide) (by decide)
  · exact (refresh_failure_kinds_and_state
      [{ id := "u1", email := "a@b.c", password := "h", name := "A",
         role := "USER", status := "ACTIVE", refreshToken := none }]
      (generateRefreshToken { userId := "u1", email := "a@b.c", role := "USER" } 1000)
      2000).2.2.1
      { id := "u1", email := "a@b.c", password := "h", name := "A",
        role := "USER", status := "ACTIVE", refreshToken := none }
      (by decide) (by decide)
  · exact (refresh_failure_kinds_and_state
      [{ id := "u1", email := "a@b.c", password := "h", name := "A",
         role := "USER", status := "INACTIVE",
         refreshToken := some (generateRefreshToken
           { userId := "u1", email := "a@b.c", role := "USER" } 1000) }]
      (generateRefreshToken { userId := "u1", email := "a@b.c", role := "USER" } 1000)
      2000).2.2.2
      { userId := "u1", email := "a@b.c", role := "USER" }
      { id := "u1", email := "a@b.c", password := "h", name := "A",
        role := "USER", status := "INACTIVE",
        refreshToken := some (generateRefreshToken
          { userId := "u1", email := "a@b.c", role := "USER" } 1000) }
      (by decide) (by decide) (by decide) (by decide)

/-- C3 counterexample to the claim as stated: a refresh for a non-ACTIVE
account whose presented token verifies and matches the stored value is
rejected with `Forbidden "Account is inactive"`, which is not an
`Unauthorized` authentication failure (the kind the specification's
taxonomy assigns to a disabled account at auth-check time). -/
theorem refresh_inactive_not_unauthorized_counterexample :
    (AuthService.refreshToken
      [{ id := "u1", email := "a@b.c", password := "h", name := "A",
         role := "USER", status := "INACTIVE",
         refreshToken := some (generateRefreshToken
           { userId := "u1", email := "a@b.c", role := "USER" } 1000) }]
      (generateRefreshToken { userId := "u1", email := "a@b.c", role := "USER" } 1000)
      2000).1 = .error (.forbidden "Account is inactive") ∧
    errIsUnauthorized
      (AuthService.refreshToken
        [{ id := "u1", email := "a@b.c", password := "h", name := "A",
           role := "USER", status := "INACTIVE",
           refreshToken := some (generateRefreshToken
             { userId := "u1", email := "a@b.c", role := "USER" } 1000) }]
        (generateRefreshToken { userId := "u1", email := "a@b.c", role := "USER" } 1000)
        2000).1 = false := by
  decide

/-- C4 (amended): for every database and every account id, delete-account
with target equal to the acting admin fails with
`BadRequest "Cannot delete your own account"` — not with `Forbidden` — and
the check runs before the target-existence lookup: the statement holds with
no assumption that the target exists, and the database is returned
unchanged. -/
theorem user_self_delete_rejected (db : List User) (id : String) :
    UserService.delete db id id =
      (.error (.badRequest "Cannot delete your own account"), db) := by
  simp [UserService.delete]

/-- C4 counterexample to the claim as stated: self-deletion by an existing
admin is rejected with `BadRequestException`, which is not a
`ForbiddenException`. -/
theorem user_self_delete_not_forbidden_counterexample :
    (UserService.delete
      [{ id := "adm", email := "adm@b.c", password := "h", name := "Adm",
         role := "ADMIN", status := "ACTIVE", refreshToken := none }]
      "adm" "adm").1 = .error (.badRequest "Cannot delete your own account") ∧
    errIsForbidden
      (UserService.delete
        [{ id := "adm", email := "adm@b.c", password := "h", name := "Adm",
           role := "ADMIN", status := "ACTIVE", refreshToken := none }]
        "adm" "adm").1 = false := by
  decide

/-- C5 (amended): `setupAdmin` fails with
`Forbidden "Admin already exists. Use /api/users to create more admins."`
— not with `Conflict` — whenever any ADMIN account already exists; fails
with `Conflict "Email already registered"` when no admin exists but the
email is already registered; and otherwise appends an account with role
ADMIN, status ACTIVE and password stored as the bcrypt hash of the input
password. -/
theorem setup_admin_spec (hash : String → String) (newId : String)
    (db : List User) (data : RegisterInput) :
    ((∃ u ∈ db, u.role = "ADMIN") →
      AuthService.setupAdmin hash newId db data =
        (.error (.forbidden "Admin already exists. Use /api/users to create more admins."), db)) ∧
    ((∀ u ∈ db, u.role ≠ "ADMIN") → (∃ u ∈ db, u.email = data.email) →
      AuthService.setupAdmin hash newId db data =
        (.error (.conflict "Email already registered"), db)) ∧
    ((∀ u ∈ db, u.role ≠ "ADMIN") → (∀ u ∈ db, u.email ≠ data.email) →
      ∃ u, AuthService.setupAdmin hash newId db data = (.ok u, db ++ [u]) ∧
        u.role = "ADMIN" ∧ u.status = "ACTIVE" ∧
        u.password = hash data.password ∧ u.email = data.email) := by
  refine ⟨?_, ?_, ?_⟩
  · intro hadm
    obtain ⟨u, hu, hur⟩ := hadm
    have hfind : (db.find? (fun u => u.role == "ADMIN")).isSome := by
      rw [List.find?_isSome]
      exact ⟨u, hu, by simpa using hur⟩
    unfold AuthService.setupAdmin
    obtain ⟨v, hv⟩ := Option.isSome_iff_exists.mp hfind
    simp [hv]
  · intro hnoadm hemail
    obtain ⟨u, hu, hue⟩ := hemail
    have hfind : db.find? (fun u => u.role == "ADMIN") = none := by
      rw [List.find?_eq_none]
      intro v hv
      simpa using hnoadm v hv
    have hmail : (findUserByEmail db data.email).isSome := by
      rw [findUserByEmail, List.find?_isSome]
      exact ⟨u, hu, by simpa using hue⟩
    obtain ⟨v, hv⟩ := Option.isSome_iff_exists.mp hmail
    unfold AuthService.setupAdmin
    simp [hfind, hv]
  · intro hnoadm hnomail
    have hfind : db.find? (fun u => u.role == "ADMIN") = none := by
      rw [List.find?_eq_none]
      intro v hv
      simpa using hnoadm v hv
    have hmail : findUserByEmail db data.email = none := by
      rw [findUserByEmail, List.find?_eq_none]
      intro v hv
      simpa using hnomail v hv
    refine ⟨{ id := newId, email := data.email, password := hash data.password,
              name := data.name, role := "ADMIN", status := "ACTIVE",
              refreshToken := none }, ?_, rfl, rfl, rfl, rfl⟩
    unfold AuthService.setupAdmin
    simp [hfind, hmail]

/-- C5 witness: on an empty database the admin is created with role ADMIN,
status ACTIVE and hashed password; with that admin present a second call
fails `Forbidden`; with only a non-admin holding the email the call fails
`Conflict`. -/
theorem setup_admin_spec_witness :
    (∃ u, AuthService.setupAdmin (fun s => "bcrypt-" ++ s) "id1" []
        { email := "root@b.c", password := "pw", name := "Root" } = (.ok u, [] ++ [u]) ∧
      u.role = "ADMIN" ∧ u.status = "ACTIVE" ∧
      u.password = "bcrypt-" ++ "pw" ∧ u.email = "root@b.c") ∧
    AuthService.setupAdmin (fun s => "bcrypt-" ++ s) "id2"
      [{ id := "id1", email := "root@b.c", password := "bcrypt-pw", name := "Root",
         role := "ADMIN", status := "ACTIVE", refreshToken := none }]
      { email := "other@b.c", password := "pw2", name := "Other" } =
      (.error (.forbidden "Admin already exists. Use /api/users to create more admins."),
       [{ id := "id1", email := "root@b.c", password := "bcrypt-pw", name := "Root",
          role := "ADMIN", status := "ACTIVE", refreshToken := none }]) ∧
    AuthService.setupAdmin (fun s => "bcrypt-" ++ s) "id3"
      [{ id := "u7", email := "taken@b.c", password := "x", name := "U",
         role := "USER", status := "ACTIVE", refreshToken := none }]
      { email := "taken@b.c", password := "pw3", name := "T" } =
      (.error (.conflict "Email already registered"),
       [{ id := "u7", email := "taken@b.c", password := "x", name := "U",
          role := "USER", status := "ACTIVE", refreshToken := none }]) := by
  refine ⟨?_, ?_, ?_⟩
  · exact (setup_admin_spec (fun s => "bcrypt-" ++ s) "id1" []
      { email := "root@b.c", password := "pw", name := "Root" }).2.2
      (by decide) (by decide)
  · exact (setup_admin_spec (fun s => "bcrypt-" ++ s) "id2"
      [{ id := "id1", email := "root@b.c", password := "bcrypt-pw", name := "Root",
         role := "ADMIN", status := "ACTIVE", refreshToken := none }]
      { email := "other@b.c", password := "pw2", name := "Other" }).1
      (by decide)
  · exact (setup_admin_spec (fun s => "bcrypt-" ++ s) "id3"
      [{ id := "u7", email := "taken@b.c", password := "x", name := "U",
         role := "USER", status := "ACTIVE", refreshToken := none }]
      { email := "taken@b.c", password := "pw3", name := "T" }).2.1
      (by decide) (by decide)

/-- C5 counterexample to the claim as stated: with an ADMIN account already
present, `setupAdmin` fails with `ForbiddenException`, not with
`Conflict`. -/
theorem setup_admin_existing_admin_not_conflict_counterexample :
    (AuthService.setupAdmin (fun s => "bcrypt-" ++ s) "id2"
      [{ id := "id1", email := "root@b.c", password := "bcrypt-pw", name := "Root",
         role := "ADMIN", status := "ACTIVE", refreshToken := none }]
      { email := "other@b.c", password := "pw2", name := "Other" }).1 =
      .error (.forbidden "Admin already exists. Use /api/users to create more admins.") ∧
    errIsConflict
      (AuthService.setupAdmin (fun s => "bcrypt-" ++ s) "id2"
        [{ id := "id1", email := "root@b.c", password := "bcrypt-pw", name := "Root",
           role := "ADMIN", status := "ACTIVE", refreshToken := none }]
        { email := "other@b.c", password := "pw2", name := "Other" }).1 = false := by
  decide

/-- C1: for an existing todo and an existing post, each of get-by-id,
update and delete succeeds exactly when the actor is an ADMIN or owns the
resource, and otherwise fails with the operation's `Forbidden` error — the
same rule, applied identically to todos and posts. -/
theorem ownership_policy_todos_posts
    (tdb : List Todo) (pdb : List Post) (tid pid uid role : String)
    (t : Todo) (p : Post) (tdata : TodoUpdate) (pdata : PostUpdate)
    (ht : findTodoById tdb tid = some t)
    (hp : findPostById pdb pid = some p) :
    (exceptOk (TodoService.getById tdb tid uid role) = true ↔
      (role = "ADMIN" ∨ t.userId = uid)) ∧
    (¬ (role = "ADMIN" ∨ t.userId = uid) →
      TodoService.getById tdb tid uid role =
        .error (.forbidden "You can only access your own todos")) ∧
    (exceptOk (TodoService.update tdb tid uid role tdata).1 = true ↔
      (role = "ADMIN" ∨ t.userId = uid)) ∧
    (¬ (role = "ADMIN" ∨ t.userId = uid) →
      (TodoService.update tdb tid uid role tdata).1 =
        .error (.forbidden "You can only update your own todos")) ∧
    (exceptOk (TodoService.delete tdb tid uid role).1 = true ↔
      (role = "ADMIN" ∨ t.userId = uid)) ∧
    (¬ (role = "ADMIN" ∨ t.userId = uid) →
      (TodoService.delete tdb tid uid role).1 =
        .error (.forbidden "You can only delete your own todos")) ∧
    (exceptOk (PostService.getById pdb pid uid role) = true ↔
      (role = "ADMIN" ∨ p.authorId = uid)) ∧
    (¬ (role = "ADMIN" ∨ p.authorId = uid) →
      PostService.getById pdb pid uid role =
        .error (.forbidden "You can only access your own posts")) ∧
    (exceptOk (PostService.update pdb pid uid role pdata).1 = true ↔
      (role = "ADMIN" ∨ p.authorId = uid)) ∧
    (¬ (role = "ADMIN" ∨ p.authorId = uid) →
      (PostService.update pdb pid uid role pdata).1 =
        .error (.forbidden "You can only update your own posts")) ∧
    (exceptOk (PostService.delete pdb pid uid role).1 = true ↔
      (role = "ADMIN" ∨ p.authorId = uid)) ∧
    (¬ (role = "ADMIN" ∨ p.authorId = uid) →
      (PostService.delete pdb pid uid role).1 =
        .error (.forbidden "You can only delete your own posts")) := by
  refine ⟨?_, ?_, ?_, ?_, ?_, ?_, ?_, ?_, ?_, ?_, ?_, ?_⟩ <;>
    by_cases hr : role = "ADMIN" <;>
    by_cases hot : t.userId = uid <;>
    by_cases hop : p.authorId = uid <;>
    simp [TodoService.getById, TodoService.update, TodoService.delete,
      PostService.getById, PostService.update, PostService.delete,
      ht, hp, hr, hot, hop, exceptOk]

/-- C1 witness: on a concrete todo and post owned by alice — user bob is
refused with `Forbidden` on todo get and post delete, alice succeeds on
todo delete, and an admin succeeds on post update. -/
theorem ownership_policy_todos_posts_witness :
    TodoService.getById
      [{ id := "t1", userId := "alice", title := "T", description := none,
         completed := false }] "t1" "bob" "USER" =
      .error (.forbidden "You can only access your own todos") ∧
    (PostService.delete
      [{ id := "p1", authorId := "alice", title := "P", content := "C",
         published := false, files := [] }] "p1" "bob" "USER").1 =
      .error (.forbidden "You can only delete your own posts") ∧
    exceptOk (TodoService.delete
      [{ id := "t1", userId := "alice", title := "T", description := none,
         completed := false }] "t1" "alice" "USER").1 = true ∧
    exceptOk (PostService.update
      [{ id := "p1", authorId := "alice", title := "P", content := "C",
         published := false, files := [] }] "p1" "adm" "ADMIN"
      { title := none, content := none, published := none }).1 = true := by
  have Hbob := ownership_policy_todos_posts
    [{ id := "t1", userId := "alice", title := "T", description := none,
       completed := false }]
    [{ id := "p1", authorId := "alice", title := "P", content := "C",
       published := false, files := [] }]
    "t1" "p1" "bob" "USER"
    { id := "t1", userId := "alice", title := "T", description := none,
      completed := false }
    { id := "p1", authorId := "alice", title := "P", content := "C",
      published := false, files := [] }
    { title := none, description := none, completed := none }
    { title := none, content := none, published := none }
    (by decide) (by decide)
  have Halice := ownership_policy_todos_posts
    [{ id := "t1", userId := "alice", title := "T", description := none,
       completed := false }]
    [{ id := "p1", authorId := "alice", title := "P", content := "C",
       published := false, files := [] }]
    "t1" "p1" "alice" "USER"
    { id := "t1", userId := "alice", title := "T", description := none,
      completed := false }
    { id := "p1", authorId := "alice", title := "P", content := "C",
      published := false, files := [] }
    { title := none, description := none, completed := none }
    { title := none, content := none, published := none }
    (by decide) (by decide)
  have Hadm := ownership_policy_todos_posts
    [{ id := "t1", userId := "alice", title := "T", description := none,
       completed := false }]
    [{ id := "p1", authorId := "alice", title := "P", content := "C",
       published := false, files := [] }]
    "t1" "p1" "adm" "ADMIN"
    { id := "t1", userId := "alice", title := "T", description := none,
      completed := false }
    { id := "p1", authorId := "alice", title := "P", content := "C",
      published := false, files := [] }
    { title := none, description := none, completed := none }
    { title := none, content := none, published := none }
    (by decide) (by decide)
  refine ⟨Hbob.2.1 (by decide), Hbob.2.2.2.2.2.2.2.2.2.2.2 (by decide),
    Halice.2.2.2.2.1.mpr (by decide), Hadm.2.2.2.2.2.2.2.2.1.mpr (by decide)⟩

/-- The validation loop either accepts the batch or raises a
`BadRequestException`. -/
theorem validateFiles_ok_or_badRequest (files : List UploadFile) :
    validateFiles files = .ok () ∨
      ∃ msg, validateFiles files = .error (.badRequest msg) := by
  induction files with
  | nil => exact .inl rfl
  | cons f rest ih =>
    by_cases h1 : f.type ∈ ALLOWED_MIME_TYPES
    · by_cases h2 : f.size > MAX_FILE_SIZE
      · right
        exact ⟨_, by
          simp only [validateFiles]
          rw [if_neg (by simpa using h1), if_pos h2]⟩
      · have hstep : validateFiles (f :: rest) = validateFiles rest := by
          simp only [validateFiles]
          simp [h1, h2]
        rw [hstep]
        exact ih
    · right
      exact ⟨_, by
        simp only [validateFiles]
        rw [if_pos (by simpa using h1)]⟩

/-- If the validation loop accepts, every file of the batch has an allowed
MIME type and a size within the ceiling. -/
theorem validateFiles_ok_sound (files : List UploadFile)
    (h : validateFiles files = .ok ()) :
    ∀ f ∈ files, f.type ∈ ALLOWED_MIME_TYPES ∧ f.size ≤ MAX_FILE_SIZE := by
  induction files with
  | nil => intro f hf; cases hf
  | cons g rest ih =>
    by_cases h1 : g.type ∈ ALLOWED_MIME_TYPES
    · by_cases h2 : g.size > MAX_FILE_SIZE
      · exact absurd h (by simp only [validateFiles]; simp [h1, h2])
      · have hrec : validateFiles rest = .ok () := by
          have hstep : validateFiles (g :: rest) = validateFiles rest := by
            simp only [validateFiles]
            simp [h1, h2]
          rw [← hstep]
          exact h
        intro f hf
        rcases List.mem_cons.mp hf with hfg | hfr
        · subst hfg
          exact ⟨h1, by omega⟩
        · exact ih hrec f hfr
    · exact absurd h (by simp only [validateFiles]; simp [h1])

/-- C7: on an existing post with an authorized actor, a batch that is empty,
exceeds ten files, or contains any file with a disallowed MIME type or a
size above 5 MiB makes `uploadFiles` fail with `BadRequest`, with zero disk
writes performed and zero attachment records created (the error outcome
carries no records); the whole validation phase precedes the write loop by
construction. -/
theorem upload_batch_atomicity (pdb : List Post) (postId userId role : String)
    (files : List UploadFile) (gen : Nat → List Char → List Char) (post : Post)
    (hfind : findPostById pdb postId = some post)
    (hauth : role = "ADMIN" ∨ post.authorId = userId)
    (hbad : files.length = 0 ∨ files.length > MAX_FILES ∨
      ∃ f ∈ files, f.type ∉ ALLOWED_MIME_TYPES ∨ f.size > MAX_FILE_SIZE) :
    errIsBadRequest (PostService.uploadFiles pdb postId userId role files gen).1 = true ∧
    (PostService.uploadFiles pdb postId userId role files gen).2 = [] := by
  have hauthc : ¬ (role ≠ "ADMIN" ∧ post.authorId ≠ userId) := by tauto
  unfold PostService.uploadFiles
  rcases hbad with h0 | hmax | ⟨f, hf, hbadf⟩
  · simp [hfind, hauthc, h0, errIsBadRequest]
  · have hne : files.length ≠ 0 := by
      unfold MAX_FILES at hmax; omega
    simp [hfind, hauthc, hne, hmax, errIsBadRequest]
  · have hne : files.length ≠ 0 := by
      intro hz
      rw [List.length_eq_zero] at hz
      subst hz
      cases hf
    by_cases hmax : files.length > MAX_FILES
    · simp [hfind, hauthc, hne, hmax, errIsBadRequest]
    · have hval : ∃ msg, validateFiles files = .error (.badRequest msg) := by
        rcases validateFiles_ok_or_badRequest files with hok | hbadv
        · have := validateFiles_ok_sound files hok f hf
          rcases hbadf with hb | hb
          · exact absurd this.1 hb
          · omega
        · exact hbadv
      obtain ⟨msg, hmsg⟩ := hval
      simp [hfind, hauthc, hne, hmax, hmsg, errIsBadRequest]

/-- C7 witness: alice uploads a single executable file to her own post —
rejected with `BadRequest`, no disk write, no record. -/
theorem upload_batch_atomicity_witness :
    errIsBadRequest (PostService.uploadFiles
      [{ id := "p1", authorId := "alice", title := "P", content := "C",
         published := false, files := [] }]
      "p1" "alice" "USER"
      [{ name := "virus.exe".toList, type := "application/x-msdownload",
         size := 100, content := [1, 2, 3] }]
      (fun _ n => n)).1 = true ∧
    (PostService.uploadFiles
      [{ id := "p1", authorId := "alice", title := "P", content := "C",
         published := false, files := [] }]
      "p1" "alice" "USER"
      [{ name := "virus.exe".toList, type := "application/x-msdownload",
         size := 100, content := [1, 2, 3] }]
      (fun _ n => n)).2 = [] :=
  upload_batch_atomicity
    [{ id := "p1", authorId := "alice", title := "P", content := "C",
       published := false, files := [] }]
    "p1" "alice" "USER"
    [{ name := "virus.exe".toList, type := "application/x-msdownload",
       size := 100, content := [1, 2, 3] }]
    (fun _ n => n)
    { id := "p1", authorId := "alice", title := "P", content := "C",
      published := false, files := [] }
    (by decide) (by decide)
    (by
      right; right
      exact ⟨{ name := "virus.exe".toList, type := "application/x-msdownload",
               size := 100, content := [1, 2, 3] }, by decide, by decide⟩)

/-- A name without a dot has no extension split. -/
theorem splitAtLastDot_of_no_dot (cs : List Char) (h : '.' ∉ cs) :
    splitAtLastDot cs = none := by
  induction cs with
  | nil => rfl
  | cons c rest ih =>
    have hc : c ≠ '.' := fun he => h (he ▸ List.mem_cons_self c rest)
    have hr : '.' ∉ rest := fun hm => h (List.mem_cons_of_mem c hm)
    simp only [splitAtLastDot]
    rw [ih hr]
    simp [hc]

/-- Splitting at the last dot of `base ++ "." ++ ext` with a dot-free
extension recovers the base name and the extension. -/
theorem splitAtLastDot_append (base ext : List Char) (h : '.' ∉ ext) :
    splitAtLastDot (base ++ '.' :: ext) = some (base, ext) := by
  induction base with
  | nil =>
    simp only [List.nil_append, splitAtLastDot]
    rw [splitAtLastDot_of_no_dot ext h]
    simp
  | cons b bs ih =>
    simp only [List.cons_append, splitAtLastDot, List.append_eq]
    rw [ih]

/-- C9 (amended): for an original name `base ++ "." ++ ext` with a
non-empty, dot-free extension — the first `generateStoredName` variant
yields the original base name, a dash, the random two-character suffix,
and the original extension (so distinct random suffixes always give
distinct stored names for the same original); the second variant yields a
fresh UUID plus the original extension, discarding the base name.  Neither
is a deterministic function of the original filename alone: the stored
name also depends on the random suffix or UUID drawn at upload time. -/
theorem stored_name_structure (base ext r u : List Char)
    (hd : '.' ∉ ext) (hne : ext ≠ []) :
    generateStoredName (base ++ '.' :: ext) r =
      base ++ ('-' :: r) ++ ('.' :: ext) ∧
    generateStoredName2 (base ++ '.' :: ext) u = u ++ ('.' :: ext) ∧
    (∀ r2, r2 ≠ r →
      generateStoredName (base ++ '.' :: ext) r2 ≠
        generateStoredName (base ++ '.' :: ext) r) := by
  have hs := splitAtLastDot_append base ext hd
  have hform : ∀ r3 : List Char, generateStoredName (base ++ '.' :: ext) r3 =
      base ++ ('-' :: r3) ++ ('.' :: ext) := by
    intro r3
    unfold generateStoredName
    rw [hs]
  refine ⟨hform r, ?_, ?_⟩
  · unfold generateStoredName2
    rw [hs]
    simp [hne]
  · intro r2 hner heq
    rw [hform r2, hform r, List.append_assoc, List.append_assoc] at heq
    have h1 := List.append_cancel_left heq
    simp only [List.cons_append, List.cons.injEq, true_and] at h1
    exact hner (List.append_cancel_right h1)

/-- C9 witness: original name `report.pdf` — variant 1 gives
`report-a3.pdf`, variant 2 gives `a3f9c1d2.pdf`, and a different random
suffix gives a different stored name. -/
theorem stored_name_structure_witness :
    generateStoredName ("report".toList ++ '.' :: "pdf".toList) "a3".toList =
      "report".toList ++ ('-' :: "a3".toList) ++ ('.' :: "pdf".toList) ∧
    generateStoredName2 ("report".toList ++ '.' :: "pdf".toList) "a3f9c1d2".toList =
      "a3f9c1d2".toList ++ ('.' :: "pdf".toList) ∧
    generateStoredName ("report".toList ++ '.' :: "pdf".toList) "b4".toList ≠
      generateStoredName ("report".toList ++ '.' :: "pdf".toList) "a3".toList := by
  have H := stored_name_structure "report".toList "pdf".toList "a3".toList
    "a3f9c1d2".toList (by decide) (by decide)
  exact ⟨H.1, H.2.1, H.2.2 "b4".toList (by decide)⟩

/-- C9 counterexample to the claim as stated: the stored name is not
derived *deterministically* from the original filename — the same original
name with different random draws yields different stored names (variant 1),
and under the deployed second variant two different original filenames with
the same UUID draw collapse to the *same* stored name, which therefore is
not derived from (and does not keep recognizable) the original base name. -/
theorem stored_name_counterexample :
    generateStoredName "report.pdf".toList "a3".toList ≠
      generateStoredName "report.pdf".toList "b4".toList ∧
    generateStoredName2 "report.pdf".toList "a3f9c1d2".toList =
      generateStoredName2 "secret.pdf".toList "a3f9c1d2".toList := by
  decide
